import Mathlib

/-!
Shallow embedding of the pomodoro timer engine of `src/hooks/useTimer.ts`
(the v2 hook with progress persistence).  The React hook's state machine is
modelled as pure functions on an explicit engine state; the `useRef` cells
(`startTimeRef`, `lastUpdateRef`, `expectedEndTimeRef`) become fields of the
engine state, and the side effects (notifications, wake lock, localStorage
writes) become an explicit effect list returned by each operation, in the
order the source performs them.  Wall-clock instants (`Date.now()`) are
milliseconds as `Int`.
-/

namespace PomoTimer

/-- Record `TimerSettings` from `src/types` as used by the hook. -/
structure TimerSettings where
  workDuration : Nat
  breakDuration : Nat
  intervals : Nat
  notificationVolume : Nat
  notificationSound : String
  beepCount : Nat
  deriving DecidableEq, Repr

/-- Constant `defaultSettings` of `useTimer.ts` (v2): work 20 min, break 5 min, 6 intervals. -/
def defaultSettings : TimerSettings :=
  { workDuration := 20
    breakDuration := 5
    intervals := 6
    notificationVolume := 50
    notificationSound := "bell"
    beepCount := 3 }

/-- Constant `CURRENT_VERSION` (the string "2.0") in `useTimer.ts`. -/
def currentVersion : String := "2.0"

/-- The `TimerState` record held in the hook's `useState`. -/
structure TimerState where
  timeLeft : Nat
  isRunning : Bool
  isPaused : Bool
  currentInterval : Nat
  isWorkSession : Bool
  settings : TimerSettings
  deriving DecidableEq, Repr

/-- The spec's derived `status` enum (`Idle`, `Running`, `Paused`).  The code
stores the two booleans `isRunning` / `isPaused`; the status is `Running` when
`isRunning`, else `Paused` when `isPaused`, else `Idle`. -/
inductive Status where
  | Idle
  | Running
  | Paused
  deriving DecidableEq, Repr

/-- Derivation of the spec-level status from the stored booleans. -/
def TimerState.status (s : TimerState) : Status :=
  if s.isRunning then Status.Running
  else if s.isPaused then Status.Paused
  else Status.Idle

/-- Observable side effects of an engine operation, in source order. -/
inductive Effect where
  | requestWakeLock
  | releaseWakeLock
  | notify (title : String) (body : String)
  | saveProgress (currentInterval : Nat)
  | saveSettings (s : TimerSettings)
  deriving DecidableEq, Repr

/-- Whole engine state: the React state plus the three mutable refs. -/
structure EngineState where
  state : TimerState
  startTime : Option Int
  lastUpdate : Option Int
  expectedEndTime : Option Int
  deriving DecidableEq, Repr

/-- The expression `Math.max(0, Math.ceil((endTime - now) / 1000))`: remaining
whole seconds until the target end instant, clamped at zero.  Division on
`Int` here is Euclidean (floor, for the positive divisor 1000), so the
ceiling of the rational quotient is `(a + 999) / 1000`. -/
def remainingFrom (endTime now : Int) : Int :=
  max 0 ((endTime - now + 999) / 1000)

/-- Operation `startTimer`: request the wake lock, set all three refs from `now`
(`expectedEndTime = now + timeLeft * 1000`), and mark the state running. -/
def startTimer (e : EngineState) (now : Int) : EngineState × List Effect :=
  ({ e with
      startTime := some now
      lastUpdate := some now
      expectedEndTime := some (now + (e.state.timeLeft : Int) * 1000)
      state := { e.state with isRunning := true, isPaused := false } },
   [Effect.requestWakeLock])

/-- Operation `pauseTimer`: release the wake lock and mark the state paused.  The refs
are not touched. -/
def pauseTimer (e : EngineState) : EngineState × List Effect :=
  ({ e with state := { e.state with isRunning := false, isPaused := true } },
   [Effect.releaseWakeLock])

/-- Operation `resetTimer`: release the wake lock, clear the refs, persist progress
index 1 and reset the state.  Note that the source keeps `isWorkSession`
unchanged and picks the full duration of the *current* session type. -/
def resetTimer (e : EngineState) : EngineState × List Effect :=
  ({ e with
      startTime := none
      lastUpdate := none
      expectedEndTime := none
      state := { e.state with
        isRunning := false
        isPaused := false
        currentInterval := 1
        timeLeft :=
          (if e.state.isWorkSession then e.state.settings.workDuration
           else e.state.settings.breakDuration) * 60 } },
   [Effect.releaseWakeLock, Effect.saveProgress 1])

/-- Operation `skipSession`: the `setState` body of the source.  The refs (in
particular `expectedEndTimeRef`) are not touched by skip. -/
def skipSession (e : EngineState) : EngineState × List Effect :=
  let prev := e.state
  let totalSessions := prev.settings.intervals * 2
  if prev.currentInterval = totalSessions then
    ({ e with state := { prev with
        isRunning := false
        isPaused := false
        currentInterval := 1
        isWorkSession := true
        timeLeft := prev.settings.workDuration * 60 } },
     [Effect.releaseWakeLock,
      Effect.notify "Pomodoro Complete!" "All work sessions completed. Great job!",
      Effect.saveProgress totalSessions])
  else
    let nextIsWork := !prev.isWorkSession
    let nextInterval := if nextIsWork then prev.currentInterval + 1 else prev.currentInterval
    let nextDuration := if nextIsWork then prev.settings.workDuration else prev.settings.breakDuration
    ({ e with state := { prev with
        isWorkSession := nextIsWork
        currentInterval := nextInterval
        timeLeft := nextDuration * 60 } },
     if nextIsWork then [Effect.saveProgress nextInterval] else [])

/-- The `timeLeft <= 0` branch of `updateTimer`'s `setState`: the
session-boundary crossing.  `now` is the tick's `Date.now()` reading.
`Math.ceil(nextInterval / 2)` is `(nextInterval + 1) / 2` on naturals. -/
def boundaryCross (e : EngineState) (now : Int) : EngineState × List Effect :=
  let prev := e.state
  let totalSessions := prev.settings.intervals * 2
  if prev.currentInterval = totalSessions then
    ({ e with
        expectedEndTime := none
        state := { prev with
          isRunning := false
          isPaused := false
          currentInterval := 1
          isWorkSession := true
          timeLeft := prev.settings.workDuration * 60 } },
     [Effect.releaseWakeLock,
      Effect.notify "Pomodoro Complete!" "All work sessions completed. Great job!",
      Effect.saveProgress totalSessions])
  else
    let nextIsWork := !prev.isWorkSession
    let nextInterval := if nextIsWork then prev.currentInterval + 1 else prev.currentInterval
    let nextDuration := if nextIsWork then prev.settings.workDuration else prev.settings.breakDuration
    let workNum := (nextInterval + 1) / 2
    let tot := prev.settings.intervals
    let brk := prev.settings.breakDuration
    ({ e with
        expectedEndTime := some (now + (nextDuration : Int) * 60 * 1000)
        state := { prev with
          isWorkSession := nextIsWork
          currentInterval := nextInterval
          timeLeft := nextDuration * 60 } },
     (if nextIsWork then [Effect.saveProgress nextInterval] else []) ++
     [Effect.notify (if nextIsWork then "Work Time!" else "Break Time!")
        (if nextIsWork then s!"Starting work session {workNum} of {tot}"
         else s!"Take a {brk} minute break")])

/-- Operation `updateTimer`, the tick: bail out when `expectedEndTimeRef` is unset,
otherwise recompute `timeLeft` from the target end-time, record
`lastUpdateRef = now`, and either cross the boundary (at zero) or publish
the recomputed `timeLeft`. -/
def updateTimer (e : EngineState) (now : Int) : EngineState × List Effect :=
  match e.expectedEndTime with
  | none => (e, [])
  | some endTime =>
    let timeLeft := remainingFrom endTime now
    let e1 := { e with lastUpdate := some now }
    if timeLeft ≤ 0 then
      boundaryCross e1 now
    else
      ({ e1 with state := { e1.state with timeLeft := timeLeft.toNat } }, [])

/-- Handler `handleVisibilityChange`: while running with a target end-time set,
resynchronise `timeLeft` from the target (clamped at 0) and record
`lastUpdateRef = now`; it performs no boundary crossing and emits no
effects. -/
def handleVisibilityChange (e : EngineState) (now : Int) : EngineState × List Effect :=
  if !e.state.isRunning || e.expectedEndTime = none then (e, [])
  else
    match e.expectedEndTime with
    | none => (e, [])
    | some endTime =>
      let timeLeft := remainingFrom endTime now
      ({ e with
          lastUpdate := some now
          state :=
            if timeLeft ≤ 0 then { e.state with timeLeft := 0 }
            else { e.state with timeLeft := timeLeft.toNat } },
       [])

/-- The `Partial<TimerSettings>` argument of `updateSettings`. -/
structure PartialTimerSettings where
  workDuration : Option Nat := none
  breakDuration : Option Nat := none
  intervals : Option Nat := none
  notificationVolume : Option Nat := none
  notificationSound : Option String := none
  beepCount : Option Nat := none
  deriving DecidableEq, Repr

/-- The object spread `{ ...prev.settings, ...newSettings }`. -/
def mergeSettings (s : TimerSettings) (p : PartialTimerSettings) : TimerSettings :=
  { workDuration := p.workDuration.getD s.workDuration
    breakDuration := p.breakDuration.getD s.breakDuration
    intervals := p.intervals.getD s.intervals
    notificationVolume := p.notificationVolume.getD s.notificationVolume
    notificationSound := p.notificationSound.getD s.notificationSound
    beepCount := p.beepCount.getD s.beepCount }

/-- Operation `updateSettings`: merge and persist the new settings; when not running,
recompute `timeLeft` from the current session type's (possibly new)
duration, otherwise leave the in-flight countdown untouched. -/
def updateSettings (e : EngineState) (newSettings : PartialTimerSettings) :
    EngineState × List Effect :=
  let prev := e.state
  let updatedSettings := mergeSettings prev.settings newSettings
  ({ e with state := { prev with
      settings := updatedSettings
      timeLeft :=
        if !prev.isRunning then
          (if prev.isWorkSession then updatedSettings.workDuration
           else updatedSettings.breakDuration) * 60
        else prev.timeLeft } },
   [Effect.saveSettings updatedSettings])

/-- Outcome of `JSON.parse` on a string that is present in localStorage:
either the parse throws (malformed) or yields a value. -/
inductive Parsed (α : Type) where
  | malformed
  | value (a : α)
  deriving DecidableEq, Repr

/-- The persisted progress blob `{ currentInterval, lastDate }`. -/
structure ProgressData where
  currentInterval : Nat
  lastDate : String
  deriving DecidableEq, Repr

/-- The settings part of the initializer: parse the saved settings only when
present with a matching version tag (`JSON.parse` throwing when the value is
malformed — there is no try/catch), otherwise fall back to the defaults. -/
def settingsStep (savedVersion : Option String)
    (savedSettings : Option (Parsed TimerSettings)) : Except String TimerSettings :=
  match savedSettings, savedVersion with
  | some s, some v =>
    if v = currentVersion then
      match s with
      | Parsed.malformed => Except.error "JSON.parse: malformed settings"
      | Parsed.value a => Except.ok a
    else Except.ok defaultSettings
  | _, _ => Except.ok defaultSettings

/-- The progress part of the initializer: `JSON.parse` of the progress key
(uncaught when malformed), kept only when its `lastDate` is today. -/
def progressStep (savedProgress : Option (Parsed ProgressData))
    (today : String) : Except String ProgressData :=
  match savedProgress with
  | none => Except.ok { currentInterval := 1, lastDate := today }
  | some Parsed.malformed => Except.error "JSON.parse: malformed progress"
  | some (Parsed.value p) =>
    Except.ok (if p.lastDate = today then p else { currentInterval := 1, lastDate := today })

/-- The `useState` initializer of `useTimer.ts` (v2).  Inputs are the three
localStorage reads (`none` = key absent, `some .malformed` = present but
`JSON.parse` throws) and today's date string.  An uncaught `JSON.parse`
exception is `Except.error`.  The localStorage writes of the
version-migration branch are not observable in the returned state and are
elided here. -/
def useTimerInit (savedVersion : Option String)
    (savedSettings : Option (Parsed TimerSettings))
    (savedProgress : Option (Parsed ProgressData))
    (today : String) : Except String TimerState :=
  match settingsStep savedVersion savedSettings with
  | Except.error msg => Except.error msg
  | Except.ok settings =>
    match progressStep savedProgress today with
    | Except.error msg => Except.error msg
    | Except.ok progress =>
      Except.ok
        { timeLeft := settings.workDuration * 60
          isRunning := false
          isPaused := false
          currentInterval := progress.currentInterval
          isWorkSession := true
          settings := settings }

/-- Wrap a freshly constructed `TimerState` into an engine: all three refs
start out `null`. -/
def initialEngine (st : TimerState) : EngineState :=
  { state := st, startTime := none, lastUpdate := none, expectedEndTime := none }

/-- Boolean success test for a construction result. -/
def initOk (r : Except String TimerState) : Bool :=
  match r with
  | Except.ok _ => true
  | Except.error _ => false

/-! ### Concrete engines and an expiry driver, used to evaluate the code on
specific runs. -/

/-- Unreachable fallback used only to make the concrete-engine extractions
total (`useTimerInit` succeeds on all the inputs below). -/
def fallbackState : TimerState :=
  { timeLeft := 0
    isRunning := false
    isPaused := false
    currentInterval := 1
    isWorkSession := true
    settings := defaultSettings }

/-- Fresh engine with the built-in default settings (first load, empty
storage, 2026-01-05 as "today"). -/
def engDefault : EngineState :=
  match useTimerInit none none none "Mon Jan 05 2026" with
  | Except.ok st => initialEngine st
  | Except.error _ => initialEngine fallbackState

/-- The spec's running example: workDuration 25, breakDuration 5, 4 intervals. -/
def settingsC1 : TimerSettings :=
  { workDuration := 25
    breakDuration := 5
    intervals := 4
    notificationVolume := 50
    notificationSound := "bell"
    beepCount := 3 }

/-- Fresh engine restored with `settingsC1` under the current version tag. -/
def engC1 : EngineState :=
  match useTimerInit (some currentVersion) (some (Parsed.value settingsC1)) none "Mon Jan 05 2026" with
  | Except.ok st => initialEngine st
  | Except.error _ => initialEngine fallbackState

/-- Drive the engine to the current session's expiry: tick exactly at the
target end-time (the state after this tick is what a tick at any later
instant before the next boundary also produces). -/
def expireOnce (e : EngineState) : EngineState :=
  match e.expectedEndTime with
  | some endTime => (updateTimer e endTime).1
  | none => e

/-- Iterate `expireOnce`. -/
def expireN : Nat → EngineState → EngineState
  | 0, e => e
  | n + 1, e => expireN n (expireOnce e)

/-- Effects of the tick at the current session's expiry. -/
def expireOnceEffects (e : EngineState) : List Effect :=
  match e.expectedEndTime with
  | some endTime => (updateTimer e endTime).2
  | none => []

/-- Number of `notify` effects in a list. -/
def countNotify (fx : List Effect) : Nat :=
  (fx.filter fun f => match f with | Effect.notify _ _ => true | _ => false).length

/-- Number of `saveProgress` effects in a list. -/
def countProgress (fx : List Effect) : Nat :=
  (fx.filter fun f => match f with | Effect.saveProgress _ => true | _ => false).length

/-! ### Helper lemmas -/

/-- Unfolding of a tick when the target end-time is set. -/
lemma updateTimer_some (e : EngineState) (now endT : Int)
    (h : e.expectedEndTime = some endT) :
    updateTimer e now =
      (if remainingFrom endT now ≤ 0 then
        boundaryCross { e with lastUpdate := some now } now
      else
        ({ e with
            lastUpdate := some now
            state := { e.state with timeLeft := (remainingFrom endT now).toNat } }, [])) := by
  obtain ⟨st, t0, lu, ee⟩ := e
  simp only at h
  subst h
  rfl

/-- Unfolding of a tick when no target end-time is set: a no-op. -/
lemma updateTimer_none (e : EngineState) (now : Int)
    (h : e.expectedEndTime = none) :
    updateTimer e now = (e, []) := by
  obtain ⟨st, t0, lu, ee⟩ := e
  simp only at h
  subst h
  rfl

/-- Once the instant `now` is at or past the target, the recomputed remaining
time clamps to zero. -/
lemma remainingFrom_nonpos (endT now : Int) (h : endT ≤ now) :
    remainingFrom endT now ≤ 0 := by
  unfold remainingFrom
  omega

/-- One second or more before the target, the recomputed remaining time is
positive; at exactly `d * 60` seconds before it, it is `d * 60`. -/
lemma remainingFrom_at_session_start (now : Int) (d : Nat) :
    remainingFrom (now + (d : Int) * 60 * 1000) now = (d : Int) * 60 := by
  unfold remainingFrom
  omega

/-! ### Claim theorems -/

/-- C1: with workDuration=25, breakDuration=5, intervals=4 the claim says a
full cycle is exactly 8 sessions, session 8 is a break, and the expiry of
session 8 performs the completion reset.  Evaluating the code: after 8
session expiries the engine is still `Running`, mid-cycle, on a *work*
session with `currentInterval = 5`; the session whose expiry triggers
completion is the 15th session overall — a *work* session carrying
`currentInterval = 8` — and only that 15th expiry performs the reset to
index 1 / work / 1500 s / not running, with the completion notification. -/
theorem c1_cycle_not_eight_sessions :
    (expireN 8 (startTimer engC1 0).1).state.isRunning = true ∧
    (expireN 8 (startTimer engC1 0).1).state.currentInterval = 5 ∧
    (expireN 8 (startTimer engC1 0).1).state.isWorkSession = true ∧
    (expireN 14 (startTimer engC1 0).1).state.isWorkSession = true ∧
    (expireN 14 (startTimer engC1 0).1).state.currentInterval = 8 ∧
    (expireN 15 (startTimer engC1 0).1).state =
      { timeLeft := 1500
        isRunning := false
        isPaused := false
        currentInterval := 1
        isWorkSession := true
        settings := settingsC1 } ∧
    countNotify (expireOnceEffects (expireN 14 (startTimer engC1 0).1)) = 1 := by
  refine ⟨rfl, rfl, rfl, rfl, rfl, rfl, rfl⟩

/-- C2: the claim says every reachable state satisfies
`isWorkSession = (currentInterval is odd)`.  Evaluating the code on the
reachable trace start-at-0 then tick at the first work session's end: the
engine enters the first break while keeping `currentInterval = 1` (odd), so
the parity invariant is violated at the very first boundary. -/
theorem c2_parity_invariant_violated :
    (expireN 1 (startTimer engDefault 0).1).state.currentInterval % 2 = 1 ∧
    (expireN 1 (startTimer engDefault 0).1).state.isWorkSession = false := by
  refine ⟨rfl, rfl⟩

/-- C3 counterexample: `reset()` called on the reachable break state (start,
then tick through the first boundary, with default settings) leaves
`isWorkSession = false` and sets `remainingSeconds` to the break duration
300, not to `workDuration * 60 = 1200` as the claim states. -/
theorem c3_reset_counterexample :
    (resetTimer (expireN 1 (startTimer engDefault 0).1)).1.state.isWorkSession = false ∧
    (resetTimer (expireN 1 (startTimer engDefault 0).1)).1.state.timeLeft = 300 ∧
    (expireN 1 (startTimer engDefault 0).1).state.settings.workDuration * 60 = 1200 := by
  refine ⟨rfl, rfl, rfl⟩

/-- C3 amended: `reset()` from any state yields `currentSessionIndex = 1`,
status `Idle`, persists progress index 1 (after releasing the wake lock) and
leaves the settings unchanged; but it keeps `isWorkSession` unchanged and
sets `remainingSeconds` to the full duration of the *current* session type
(`workDuration*60` on a work session, `breakDuration*60` on a break). -/
theorem c3_reset_behavior (e : EngineState) :
    (resetTimer e).1.state.currentInterval = 1 ∧
    (resetTimer e).1.state.status = Status.Idle ∧
    (resetTimer e).1.state.settings = e.state.settings ∧
    (resetTimer e).1.state.isWorkSession = e.state.isWorkSession ∧
    (resetTimer e).1.state.timeLeft =
      (if e.state.isWorkSession then e.state.settings.workDuration
       else e.state.settings.breakDuration) * 60 ∧
    (resetTimer e).2 = [Effect.releaseWakeLock, Effect.saveProgress 1] := by
  refine ⟨rfl, ?_, rfl, rfl, rfl, rfl⟩
  simp [resetTimer, TimerState.status]

/-- C4 counterexample: `skip()` on a non-last session (the freshly started
default engine, on work session 1 of a 12-session bookkeeping cycle) fires
*zero* notifications — not the one the claim requires — and leaves the
target end-time at the old work session's end `1200000` instead of
recomputing it for the new 300-second break. -/
theorem c4_skip_counterexample :
    countNotify (skipSession (startTimer engDefault 0).1).2 = 0 ∧
    (skipSession (startTimer engDefault 0).1).1.expectedEndTime = some 1200000 ∧
    (skipSession (startTimer engDefault 0).1).1.state.timeLeft = 300 := by
  refine ⟨rfl, rfl, rfl⟩

/-- C4 amended: `skip()` on a session that is not last-in-cycle advances the
session state with exactly the same next-session computation as natural
expiry (same next type, index, duration, and the same progress write when
entering a work session), but it fires no notification at all and does not
touch the target end-time: the next tick still measures remaining time
against the old session's end. -/
theorem c4_skip_advances_silently (e : EngineState)
    (h : e.state.currentInterval ≠ e.state.settings.intervals * 2) :
    (skipSession e).1.state.isWorkSession = !e.state.isWorkSession ∧
    (skipSession e).1.state.currentInterval =
      (if !e.state.isWorkSession then e.state.currentInterval + 1
       else e.state.currentInterval) ∧
    (skipSession e).1.state.timeLeft =
      (if !e.state.isWorkSession then e.state.settings.workDuration
       else e.state.settings.breakDuration) * 60 ∧
    (skipSession e).1.expectedEndTime = e.expectedEndTime ∧
    countNotify (skipSession e).2 = 0 ∧
    (skipSession e).2 =
      (if !e.state.isWorkSession
       then [Effect.saveProgress (e.state.currentInterval + 1)] else []) ∧
    (∀ now : Int, (skipSession e).1.state = (boundaryCross e now).1.state) := by
  by_cases hw : e.state.isWorkSession <;>
    simp [skipSession, boundaryCross, h, hw, countNotify]

/-- C4 witness: the amended theorem applied to the freshly started default
engine (session 1 of 12, not last-in-cycle). -/
theorem c4_skip_witness :
    countNotify (skipSession (startTimer engDefault 0).1).2 = 0 ∧
    (skipSession (startTimer engDefault 0).1).1.expectedEndTime =
      (startTimer engDefault 0).1.expectedEndTime :=
  ⟨(c4_skip_advances_silently (startTimer engDefault 0).1 (by decide)).2.2.2.2.1,
   (c4_skip_advances_silently (startTimer engDefault 0).1 (by decide)).2.2.2.1⟩

/-- C5: ticking twice at the same instant `now` at or after the current
session's target end-time leaves the state of the first tick unchanged and
emits no further effects; the single boundary crossing of the first tick
fires exactly one notification and at most one progress write.  The guard is
the one the source relies on: the crossing immediately moves the target
end-time to the next session's end (or clears it at cycle completion), so
the repeated tick sees a positive remaining time (or no target) and does not
re-fire.  Durations are positive, as the settings invariant requires. -/
theorem c5_tick_idempotent_at_boundary (e : EngineState) (now endT : Int)
    (hEnd : e.expectedEndTime = some endT) (hNow : endT ≤ now)
    (hW : 0 < e.state.settings.workDuration)
    (hB : 0 < e.state.settings.breakDuration) :
    (updateTimer (updateTimer e now).1 now).1 = (updateTimer e now).1 ∧
    (updateTimer (updateTimer e now).1 now).2 = [] ∧
    countNotify (updateTimer e now).2 = 1 ∧
    countProgress (updateTimer e now).2 ≤ 1 := by
  obtain ⟨⟨tl, ir, ip, ci, iw, s⟩, t0, lu, ee⟩ := e
  simp only at hEnd hW hB
  subst hEnd
  have h0 := remainingFrom_nonpos endT now hNow
  rw [updateTimer_some
        ⟨⟨tl, ir, ip, ci, iw, s⟩, t0, lu, some endT⟩ now endT rfl,
      if_pos h0]
  by_cases hLast : ci = s.intervals * 2
  · -- cycle completion: the target end-time is cleared, the repeated tick
    -- is a guarded no-op
    simp only [boundaryCross, hLast, if_pos rfl]
    rw [updateTimer_none _ now rfl]
    refine ⟨rfl, rfl, by simp [countNotify], by simp [countProgress]⟩
  · -- ordinary advance: the target moves to the next session's end
    by_cases hw : iw
    · -- work session expires into a break of s.breakDuration minutes
      have hd : ((s.breakDuration : Int) * 60).toNat = s.breakDuration * 60 := by omega
      have hpos : ¬ remainingFrom (now + (s.breakDuration : Int) * 60 * 1000) now ≤ 0 := by
        rw [remainingFrom_at_session_start]
        omega
      simp only [boundaryCross, hLast, if_neg hLast, hw]
      rw [updateTimer_some _ now (now + (s.breakDuration : Int) * 60 * 1000) rfl,
        if_neg hpos, remainingFrom_at_session_start, hd]
      refine ⟨rfl, rfl, by simp [countNotify], by simp [countProgress]⟩
    · -- break expires into a work session of s.workDuration minutes
      have hd : ((s.workDuration : Int) * 60).toNat = s.workDuration * 60 := by omega
      have hpos : ¬ remainingFrom (now + (s.workDuration : Int) * 60 * 1000) now ≤ 0 := by
        rw [remainingFrom_at_session_start]
        omega
      simp only [boundaryCross, hLast, if_neg hLast, hw]
      rw [updateTimer_some _ now (now + (s.workDuration : Int) * 60 * 1000) rfl,
        if_neg hpos, remainingFrom_at_session_start, hd]
      refine ⟨rfl, rfl, by simp [countNotify], by simp [countProgress]⟩

/-- C5 witness: the freshly started default engine, ticked twice at the
first work session's end (t = 1200000 ms). -/
theorem c5_tick_witness :
    (updateTimer (updateTimer (startTimer engDefault 0).1 1200000).1 1200000).1 =
      (updateTimer (startTimer engDefault 0).1 1200000).1 ∧
    (updateTimer (updateTimer (startTimer engDefault 0).1 1200000).1 1200000).2 = [] ∧
    countNotify (updateTimer (startTimer engDefault 0).1 1200000).2 = 1 ∧
    countProgress (updateTimer (startTimer engDefault 0).1 1200000).2 ≤ 1 :=
  c5_tick_idempotent_at_boundary (startTimer engDefault 0).1 1200000 1200000
    (by decide) (by decide) (by decide) (by decide)

/-- The argument `{ workDuration: 30 }` of the claimed `updateSettings` call. -/
def work30 : PartialTimerSettings := { workDuration := some 30 }

/-- C6: calling `updateSettings({workDuration: 30})` while not running and on
a work session recomputes `remainingSeconds` to `30 * 60 = 1800` from the new
duration; the same call while running leaves `remainingSeconds` untouched. -/
theorem c6_updateSettings_work30 (e : EngineState) :
    (e.state.isRunning = false → e.state.isWorkSession = true →
      (updateSettings e work30).1.state.timeLeft = 1800) ∧
    (e.state.isRunning = true →
      (updateSettings e work30).1.state.timeLeft = e.state.timeLeft) := by
  constructor
  · intro hr hw
    simp [updateSettings, mergeSettings, work30, hr, hw]
  · intro hr
    simp [updateSettings, mergeSettings, work30, hr]

/-- C6 witness: the fresh default engine (Idle, work session) gets 1800; the
freshly started default engine (Running) keeps its 1200 seconds. -/
theorem c6_updateSettings_witness :
    (updateSettings engDefault work30).1.state.timeLeft = 1800 ∧
    (updateSettings (startTimer engDefault 0).1 work30).1.state.timeLeft =
      (startTimer engDefault 0).1.state.timeLeft :=
  ⟨(c6_updateSettings_work30 engDefault).1 (by decide) (by decide),
   (c6_updateSettings_work30 (startTimer engDefault 0).1).2 (by decide)⟩

/-- C7: when the tab becomes visible while running after the target end-time
has passed, the resync clamps `remainingSeconds` to 0 and changes nothing
else observable: session index, session type and status are untouched, the
target end-time is left in place (so the boundary is still pending for the
next tick), and no effects — in particular no notification and no progress
write — are emitted. -/
theorem c7_visibility_resync_past_end (e : EngineState) (now endT : Int)
    (hRun : e.state.isRunning = true) (hEnd : e.expectedEndTime = some endT)
    (hNow : endT ≤ now) :
    (handleVisibilityChange e now).1.state.timeLeft = 0 ∧
    (handleVisibilityChange e now).1.state.currentInterval = e.state.currentInterval ∧
    (handleVisibilityChange e now).1.state.isWorkSession = e.state.isWorkSession ∧
    (handleVisibilityChange e now).1.state.status = e.state.status ∧
    (handleVisibilityChange e now).1.expectedEndTime = e.expectedEndTime ∧
    (handleVisibilityChange e now).2 = [] := by
  obtain ⟨⟨tl, ir, ip, ci, iw, s⟩, t0, lu, ee⟩ := e
  simp only at hRun hEnd
  subst hRun
  subst hEnd
  have h0 := remainingFrom_nonpos endT now hNow
  simp [handleVisibilityChange, h0, TimerState.status]

/-- C7 witness: the freshly started default engine, tab made visible 100 s
after the first work session's end (t = 1300000 ms). -/
theorem c7_visibility_witness :
    (handleVisibilityChange (startTimer engDefault 0).1 1300000).1.state.timeLeft = 0 ∧
    (handleVisibilityChange (startTimer engDefault 0).1 1300000).1.state.currentInterval =
      (startTimer engDefault 0).1.state.currentInterval ∧
    (handleVisibilityChange (startTimer engDefault 0).1 1300000).1.state.isWorkSession =
      (startTimer engDefault 0).1.state.isWorkSession ∧
    (handleVisibilityChange (startTimer engDefault 0).1 1300000).1.state.status =
      (startTimer engDefault 0).1.state.status ∧
    (handleVisibilityChange (startTimer engDefault 0).1 1300000).1.expectedEndTime =
      (startTimer engDefault 0).1.expectedEndTime ∧
    (handleVisibilityChange (startTimer engDefault 0).1 1300000).2 = [] :=
  c7_visibility_resync_past_end (startTimer engDefault 0).1 1300000 1200000
    (by decide) (by decide) (by decide)

/-- C8 counterexample: the initializer has no try/catch, so a malformed
settings value under a matching version tag, or a malformed progress value,
makes construction throw the `JSON.parse` error instead of falling back to
defaults. -/
theorem c8_malformed_json_raises :
    useTimerInit (some currentVersion) (some Parsed.malformed) none "Mon Jan 05 2026" =
      Except.error "JSON.parse: malformed settings" ∧
    useTimerInit none none (some Parsed.malformed) "Mon Jan 05 2026" =
      Except.error "JSON.parse: malformed progress" := by
  refine ⟨rfl, rfl⟩

/-- C8 amended: construction recovers locally only from a schema-version
mismatch (or absent keys): whenever the stored version differs from the
current one, the settings value — even a malformed one — is discarded
unparsed in favour of the built-in defaults, and construction succeeds
provided the progress value is absent or well-formed.  Malformed JSON under
the settings key with a matching version tag, or under the progress key, is
not recovered: the `JSON.parse` exception propagates to the caller. -/
theorem c8_version_mismatch_recovers (sv : Option String)
    (ss : Option (Parsed TimerSettings)) (sp : Option (Parsed ProgressData))
    (today : String) (hv : sv ≠ some currentVersion)
    (hsp : sp ≠ some Parsed.malformed) :
    ∃ st, useTimerInit sv ss sp today = Except.ok st ∧
      st.settings = defaultSettings ∧ st.isWorkSession = true ∧
      st.timeLeft = defaultSettings.workDuration * 60 := by
  have hsettings : settingsStep sv ss = Except.ok defaultSettings := by
    match ss, sv with
    | none, none => rfl
    | none, some v => rfl
    | some s, none => rfl
    | some s, some v =>
      have hvne : ¬ v = currentVersion := fun hc => hv (by rw [hc])
      simp [settingsStep, hvne]
  obtain ⟨q, hq⟩ : ∃ q, progressStep sp today = Except.ok q := by
    match sp, hsp with
    | none, _ => exact ⟨_, rfl⟩
    | some (Parsed.value p), _ =>
      by_cases hd : p.lastDate = today
      · exact ⟨p, by simp [progressStep, hd]⟩
      · exact ⟨{ currentInterval := 1, lastDate := today }, by simp [progressStep, hd]⟩
  exact ⟨{ timeLeft := defaultSettings.workDuration * 60
           isRunning := false
           isPaused := false
           currentInterval := q.currentInterval
           isWorkSession := true
           settings := defaultSettings },
    by simp only [useTimerInit, hsettings, hq], rfl, rfl, rfl⟩

/-- C8 witness: absent version tag with a malformed settings value and a
well-formed same-day progress value; construction succeeds on defaults. -/
theorem c8_recovery_witness :
    ∃ st, useTimerInit none (some Parsed.malformed)
        (some (Parsed.value { currentInterval := 7, lastDate := "Mon Jan 05 2026" }))
        "Mon Jan 05 2026" = Except.ok st ∧
      st.settings = defaultSettings ∧ st.isWorkSession = true ∧
      st.timeLeft = defaultSettings.workDuration * 60 :=
  c8_version_mismatch_recovers none (some Parsed.malformed)
    (some (Parsed.value { currentInterval := 7, lastDate := "Mon Jan 05 2026" }))
    "Mon Jan 05 2026" (by decide) (by decide)

/-- C9 counterexample: `pause()` invoked on the fresh Idle engine is not a
no-op on the observable state: the status changes from `Idle` to `Paused`
because the operation unconditionally sets `isPaused`. -/
theorem c9_pause_from_idle_changes_status :
    engDefault.state.status = Status.Idle ∧
    (pauseTimer engDefault).1.state.status = Status.Paused := by
  refine ⟨rfl, rfl⟩

/-- C9 amended: `pause()` when not running never corrupts the countdown:
`remainingSeconds`, `currentSessionIndex` and `isWorkSession` are left
unchanged (and the refs are untouched), but it is not a complete no-op —
it unconditionally sets `isPaused`, so the observable status afterwards is
`Paused` (a change when called from `Idle`, a no-op when already Paused). -/
theorem c9_pause_not_running (e : EngineState)
    (h : e.state.isRunning = false) :
    (pauseTimer e).1.state.timeLeft = e.state.timeLeft ∧
    (pauseTimer e).1.state.currentInterval = e.state.currentInterval ∧
    (pauseTimer e).1.state.isWorkSession = e.state.isWorkSession ∧
    (pauseTimer e).1.state.settings = e.state.settings ∧
    (pauseTimer e).1.state.status = Status.Paused ∧
    (pauseTimer e).1.expectedEndTime = e.expectedEndTime ∧
    (pauseTimer e).2 = [Effect.releaseWakeLock] := by
  refine ⟨rfl, rfl, rfl, rfl, ?_, rfl, rfl⟩
  simp [pauseTimer, TimerState.status]

/-- C9 witness: the amended theorem applied to the fresh Idle default
engine. -/
theorem c9_pause_witness :
    (pauseTimer engDefault).1.state.timeLeft = engDefault.state.timeLeft ∧
    (pauseTimer engDefault).1.state.currentInterval = engDefault.state.currentInterval ∧
    (pauseTimer engDefault).1.state.isWorkSession = engDefault.state.isWorkSession ∧
    (pauseTimer engDefault).1.state.settings = engDefault.state.settings ∧
    (pauseTimer engDefault).1.state.status = Status.Paused ∧
    (pauseTimer engDefault).1.expectedEndTime = engDefault.expectedEndTime ∧
    (pauseTimer engDefault).2 = [Effect.releaseWakeLock] :=
  c9_pause_not_running engDefault (by decide)

/-- C10: whatever same-day progress index is restored — even an even one or
the `2 * intervals` value persisted at cycle completion — a successful
construction always starts on a work session (`isWorkSession = true`) with
the full work duration on the clock, at the restored index. -/
theorem c10_fresh_state_is_full_work (sv : Option String)
    (ss : Option (Parsed TimerSettings)) (p : ProgressData) (today : String)
    (st : TimerState)
    (h : useTimerInit sv ss (some (Parsed.value p)) today = Except.ok st)
    (hd : p.lastDate = today) :
    st.isWorkSession = true ∧ st.timeLeft = st.settings.workDuration * 60 ∧
    st.currentInterval = p.currentInterval := by
  have hp : progressStep (some (Parsed.value p)) today = Except.ok p := by
    simp [progressStep, hd]
  match hs : settingsStep sv ss with
  | Except.error msg =>
    unfold useTimerInit at h
    rw [hs] at h
    simp at h
  | Except.ok a =>
    unfold useTimerInit at h
    rw [hs, hp] at h
    simp only [Except.ok.injEq] at h
    subst h
    exact ⟨rfl, rfl, rfl⟩

/-- C10 witness: restored same-day progress index 12 (which is
`2 * intervals` for the default 6 intervals, and even): construction yields
a work session of the full 1200-second work duration at index 12. -/
theorem c10_fresh_state_witness :
    ({ timeLeft := 1200
       isRunning := false
       isPaused := false
       currentInterval := 12
       isWorkSession := true
       settings := defaultSettings } : TimerState).isWorkSession = true ∧
    ({ timeLeft := 1200
       isRunning := false
       isPaused := false
       currentInterval := 12
       isWorkSession := true
       settings := defaultSettings } : TimerState).timeLeft =
      ({ timeLeft := 1200
         isRunning := false
         isPaused := false
         currentInterval := 12
         isWorkSession := true
         settings := defaultSettings } : TimerState).settings.workDuration * 60 ∧
    ({ timeLeft := 1200
       isRunning := false
       isPaused := false
       currentInterval := 12
       isWorkSession := true
       settings := defaultSettings } : TimerState).currentInterval =
      ({ currentInterval := 12, lastDate := "Mon Jan 05 2026" } : ProgressData).currentInterval :=
  c10_fresh_state_is_full_work none none
    { currentInterval := 12, lastDate := "Mon Jan 05 2026" } "Mon Jan 05 2026"
    _ (by rfl) (by rfl)

end PomoTimer
